import Mathlib

/-!
# Verification of the apartment-chatbot tenant-context and orchestration engine

Shallow embedding of the repository's core components:

* `schema/schema_context.py` — the request-scoped tenant context (a `ContextVar`
  holding `Optional[str]`), modelled as an explicit `Option String` threaded
  through every function that reads it.
* `database.py` — `Database._inject_schema` / `execute_query` /
  `execute_non_query`; the underlying ODBC store is modelled as an abstract
  function `Store` (query text and parameters to either rows or an error),
  so "the store was never touched" is expressed by quantifying over stores.
* `api_endpoints.py` — the thirteen `ApartmentAPI` operations.
* `auth/jwt_handler.py` — `extract_building_id`, `get_schema_from_building_id`;
  token verification itself (pyjwt) is an external collaborator, modelled as a
  parameter `Verify`.
* `middleware/auth_middleware.py` — `JWTAuthMiddleware.dispatch`.
* `app.py` — the session registry (`chat_sessions`) and the four session
  operations of the FastAPI endpoints.
* `gemini_bot.py` — `GeminiChatbot` and its function-calling loop; the Gemini
  reasoning capability is modelled as a finite script of replies.

Modelling conventions (stated once here, referenced in doc comments below):

* Python values occurring in rows and envelopes are modelled by `PyVal`
  (`None`/bool/int/str/list/dict).  Python floats carrying prices, areas and
  quantities are modelled as integers: no claim below depends on non-integral
  arithmetic.
* Python truthiness of optional strings (`None` and `""` are falsy) is
  `pyTruthy`; truthiness of a `PyVal` is `PyVal.isTruthy`.
* SQL literal whitespace is normalised (lines joined by `\n` without the
  Python source's indentation); the query text is otherwise verbatim, with
  `\x7bschema\x7d` the `{schema}` placeholder.
* Fallible calls (the store, token verification, the downstream ASGI handler,
  the Gemini SDK) return `Except String _`; a `.error` is a raised exception.
-/

/-! ## Python values and dictionaries -/

/-- A Python value as it occurs in result rows, envelopes and function-call
arguments.  Floats are modelled as integers (see the file comment). -/
inductive PyVal where
  | none : PyVal
  | bool : Bool → PyVal
  | int : Int → PyVal
  | str : String → PyVal
  | list : List PyVal → PyVal
  | dict : List (String × PyVal) → PyVal

/-- Python truthiness of a `PyVal` (`bool(v)`). -/
def PyVal.isTruthy : PyVal → Bool
  | .none => false
  | .bool b => b
  | .int n => !(n == 0)
  | .str s => !(s == "")
  | .list xs => !xs.isEmpty
  | .dict kvs => !kvs.isEmpty

/-- Python truthiness of an optional string (`None` and `""` are falsy). -/
def pyTruthy : Option String → Bool
  | Option.none => false
  | Option.some s => !(s == "")

/-- A row returned by the database layer: a Python dict. -/
abbrev Row := List (String × PyVal)

namespace PyDict

/-- Python `d.get(k)` / `d[k]` lookup on a dict modelled as an association
list (first binding wins, matching the shadowing discipline of `set`). -/
def get? (l : List (String × α)) (k : String) : Option α :=
  (l.find? (fun e => e.1 == k)).map (fun e => e.2)

/-- Python `d.get(k, default)`. -/
def getD (l : List (String × α)) (k : String) (v : α) : α :=
  (PyDict.get? l k).getD v

/-- Python `d[k] = v`: the new binding shadows (and here replaces) any old
binding for `k`. -/
def set (l : List (String × α)) (k : String) (v : α) : List (String × α) :=
  (k, v) :: l.filter (fun e => e.1 != k)

/-- Python `k in d`. -/
def hasKey (l : List (String × α)) (k : String) : Bool :=
  (l.find? (fun e => e.1 == k)).isSome

end PyDict

/-! ## String helpers mirroring Python's `str` methods -/

/-- Whether `pat` begins `s` (character lists). -/
def leadMatch : List Char → List Char → Bool
  | [], _ => true
  | _ :: _, [] => false
  | a :: as, b :: bs => a == b && leadMatch as bs

/-- Whether `pat` occurs contiguously in `s` (character lists). -/
def hasSub (pat : List Char) : List Char → Bool
  | [] => leadMatch pat []
  | c :: rest => leadMatch pat (c :: rest) || hasSub pat rest

/-- Python `pat in s` on strings. -/
def pyInStr (pat s : String) : Bool := hasSub pat.data s.data

/-- Python `s.lower()` (ASCII case folding suffices for the claims). -/
def pyLower (s : String) : String := String.mk (s.data.map Char.toLower)

/-- Python `s.startswith(pre)`. -/
def pyStartsWith (s pre : String) : Bool := leadMatch pre.data s.data

/-- Worker of `pySplitSpace`: split at every single space, keeping empty
pieces, like Python `s.split(" ")`. -/
def splitSpaceAux (acc : List Char) : List Char → List (List Char)
  | [] => [acc.reverse]
  | c :: rest =>
    if c == ' ' then acc.reverse :: splitSpaceAux [] rest
    else splitSpaceAux (c :: acc) rest

/-- Python `s.split(" ")`. -/
def pySplitSpace (s : String) : List String := (splitSpaceAux [] s.data).map String.mk

/-- ASCII whitespace, for Python `s.strip()`. -/
def isSpaceChar (c : Char) : Bool := c == ' ' || c == '\t' || c == '\n' || c == '\r'

/-- Python `s.strip()`. -/
def pyStrip (s : String) : String :=
  String.mk (((s.data.dropWhile isSpaceChar).reverse.dropWhile isSpaceChar).reverse)

/-- Group a digit string into thousands with `,`, mirroring Python's
`f"{x:,.0f}"` on integral values: the input is the reversed digit list. -/
def groupRev : List Char → List Char
  | a :: b :: c :: d :: rest => a :: b :: c :: ',' :: groupRev (d :: rest)
  | l => l

/-- Python `f"{x:,.0f} VND"` on an integral value. -/
def formatVND (n : Int) : String :=
  let sign := if n < 0 then "-" else ""
  let digits := (toString n.natAbs).data
  sign ++ String.mk (groupRev digits.reverse).reverse ++ " VND"

/-! ## `schema/schema_context.py` — the tenant context

The `ContextVar` is modelled as an explicit `Option String` value: `none`
means no tenant is bound (anonymous request). -/

/-- Model of `get_current_schema()` on an explicit context value. -/
def get_current_schema (ctx : Option String) : Option String := ctx

/-- Model of `has_schema()`. -/
def has_schema (ctx : Option String) : Bool := ctx.isSome

/-! ## `database.py` — the tenant-scoped data gateway -/

/-- The underlying ODBC store: given the final query text and its parameters
it returns rows or raises.  It is a parameter of every data operation, so a
theorem quantifying over `store` states a fact independent of the store —
in particular that the store was never consulted. -/
abbrev Store := String → List PyVal → Except String (List Row)

/-- The exact message of the `ValueError` raised by
`Database._inject_schema` when no schema is bound. -/
def noTenantMsg : String :=
  "Cannot execute query: No schema context. User must be authenticated to access database."

namespace Database

/-- Model of `Database._inject_schema`: reads the context; raises `ValueError` when it
is `None`, otherwise substitutes the bound schema for every
`\x7bschema\x7d` placeholder. -/
def _inject_schema (ctx : Option String) (query : String) : Except String String :=
  match get_current_schema ctx with
  | Option.none => .error noTenantMsg
  | Option.some schema => .ok (query.replace "\x7bschema\x7d" schema)

/-- Model of `Database.execute_query`: injects the schema (raising before any
connection is opened when no tenant is bound), then runs the query on the
store. -/
def execute_query (ctx : Option String) (store : Store) (query : String)
    (params : List PyVal) : Except String (List Row) :=
  match _inject_schema ctx query with
  | .error e => .error e
  | .ok q => store q params

/-- Model of `Database.execute_non_query`: same gate, mutation path; the store's
answer for a mutation is its affected-row count, encoded as a single row. -/
def execute_non_query (ctx : Option String) (store : Store) (query : String)
    (params : List PyVal) : Except String (List Row) :=
  match _inject_schema ctx query with
  | .error e => .error e
  | .ok q => store q params

end Database

/-! ## `api_endpoints.py` — the thirteen `ApartmentAPI` operations

Every operation takes the tenant context and the abstract store explicitly
(in the source both are ambient: the `ContextVar` and the `db` singleton). -/

/-- The envelope returned by `ApartmentAPI._check_authentication` when no
schema is bound. -/
def authErrorEnvelope : PyVal :=
  .dict [("success", .bool false),
         ("error", .str "Authentication required. Please login to access this data."),
         ("data", .list []),
         ("count", .int 0)]

/-- Success envelope of the list-shaped operations:
`{"success": True, "data": results, "count": len(results)}`. -/
def envListOk (rows : List Row) : PyVal :=
  .dict [("success", .bool true),
         ("data", .list (rows.map PyVal.dict)),
         ("count", .int rows.length)]

/-- Error envelope of the list-shaped operations. -/
def envListErr (e : String) : PyVal :=
  .dict [("success", .bool false), ("error", .str e),
         ("data", .list []), ("count", .int 0)]

/-- Error envelope of the calculation/detail operations (no `data`/`count`). -/
def envErr (e : String) : PyVal :=
  .dict [("success", .bool false), ("error", .str e)]

namespace ApartmentAPI

/-- Model of `ApartmentAPI._check_authentication`: `None` when a schema is bound,
otherwise the failure envelope every operation returns unchanged. -/
def _check_authentication (ctx : Option String) : Option PyVal :=
  if !(has_schema ctx) then some authErrorEnvelope else none

/-- Model of `ApartmentAPI._convert_to_serializable`: on the modelled value domain
(none/bool/int/str/list/dict) the Python function returns its argument
unchanged — the coercions it performs concern `Decimal`, `datetime` and
`bytes`, value classes outside this model. -/
def _convert_to_serializable (v : PyVal) : PyVal := v

/-- Model of `_convert_to_serializable` applied to a result-row list, as every
operation does before building its envelope. -/
def convRows (rows : List Row) : List Row :=
  rows.map (fun r => r.map (fun kv => (kv.1, _convert_to_serializable kv.2)))

theorem convRows_eq (rows : List Row) : convRows rows = rows := by
  unfold convRows _convert_to_serializable
  induction rows with
  | nil => rfl
  | cons r rs ih =>
      simp only [List.map_cons, List.map_id', ih]

/-- Model of `get_service_types`. -/
def get_service_types (ctx : Option String) (store : Store)
    (category : Option String) : PyVal :=
  match _check_authentication ctx with
  | some err => err
  | none =>
    let query := "SELECT\nst.service_type_id,\nst.code,\nst.name,\nst.unit,\nst.is_mandatory,\nst.is_recurring,\nst.is_active,\nc.name as category_name\nFROM \x7bschema\x7d.service_types st\nLEFT JOIN \x7bschema\x7d.service_type_categories c ON st.category_id = c.category_id\nWHERE st.is_active = 1 AND st.is_delete = 0"
    let qp : String × List PyVal :=
      if pyTruthy category then
        (query ++ " AND c.name = ?", [PyVal.str (category.getD "")])
      else (query, [])
    let query := qp.1 ++ " ORDER BY st.name"
    match Database.execute_query ctx store query qp.2 with
    | .ok results => envListOk (convRows results)
    | .error e => envListErr e

/-- Per-row price formatting done by `get_service_prices` and
`get_amenity_packages`: when the row holds a truthy `price`-like value,
a `…_formatted` sibling is added.  Non-integer truthy values (which would
make the Python format expression raise) are outside the model: the abstract
store is assumed to deliver integral prices. -/
def formatRow (priceKey fmtKey : String) (r : Row) : Row :=
  match PyDict.get? r priceKey with
  | some (.int n) => if !(n == 0) then PyDict.set r fmtKey (.str (formatVND n)) else r
  | _ => r

/-- Model of `get_service_prices`. -/
def get_service_prices (ctx : Option String) (store : Store)
    (service_type_code : Option String) (active_only : Bool) : PyVal :=
  match _check_authentication ctx with
  | some err => err
  | none =>
    let query := "SELECT\nst.code as service_code,\nst.name as service_name,\nst.unit,\nsp.unit_price,\nsp.effective_date,\nsp.end_date,\nsp.status\nFROM \x7bschema\x7d.service_prices sp\nINNER JOIN \x7bschema\x7d.service_types st ON sp.service_type_id = st.service_type_id\nWHERE 1=1"
    let qp : String × List PyVal :=
      if pyTruthy service_type_code then
        (query ++ " AND st.code = ?", [PyVal.str (service_type_code.getD "")])
      else (query, [])
    let qp : String × List PyVal :=
      if active_only then
        (qp.1 ++ " AND sp.status = 'APPROVED'" ++ " AND sp.effective_date <= GETDATE()"
              ++ " AND (sp.end_date IS NULL OR sp.end_date >= GETDATE())", qp.2)
      else qp
    let query := qp.1 ++ " ORDER BY st.name, sp.effective_date DESC"
    match Database.execute_query ctx store query qp.2 with
    | .ok results => envListOk ((convRows results).map (formatRow "unit_price" "unit_price_formatted"))
    | .error e => envListErr e

/-- Model of `calculate_service_fee`.  `quantity` is the Python `float` argument,
modelled as an integer. -/
def calculate_service_fee (ctx : Option String) (store : Store)
    (service_code : String) (quantity : Int) : PyVal :=
  match _check_authentication ctx with
  | some err => err
  | none =>
    let query := "SELECT TOP 1\nst.code,\nst.name,\nst.unit,\nsp.unit_price\nFROM \x7bschema\x7d.service_prices sp\nINNER JOIN \x7bschema\x7d.service_types st ON sp.service_type_id = st.service_type_id\nWHERE st.code = ?\nAND sp.status = 'APPROVED'\nAND sp.effective_date <= GETDATE()\nAND (sp.end_date IS NULL OR sp.end_date >= GETDATE())\nORDER BY sp.effective_date DESC"
    match Database.execute_query ctx store query [PyVal.str service_code] with
    | .error e => envErr e
    | .ok results =>
      match convRows results with
      | [] => envErr ("Không tìm thấy dịch vụ với mã: " ++ service_code)
      | service :: _ =>
        match PyDict.get? service "unit_price" with
        | some (.int unit_price) =>
          let total := unit_price * quantity
          .dict [("success", .bool true),
                 ("data", .dict
                   [("service_code", PyDict.getD service "code" PyVal.none),
                    ("service_name", PyDict.getD service "name" PyVal.none),
                    ("unit", PyDict.getD service "unit" PyVal.none),
                    ("unit_price", .int unit_price),
                    ("unit_price_formatted", .str (formatVND unit_price)),
                    ("quantity", .int quantity),
                    ("total", .int total),
                    ("total_formatted", .str (formatVND total))])]
        | _ => envErr "could not convert unit_price to float"

/-- Model of `get_service_categories`. -/
def get_service_categories (ctx : Option String) (store : Store) : PyVal :=
  match _check_authentication ctx with
  | some err => err
  | none =>
    let query := "SELECT\ncategory_id,\nname,\ndescription\nFROM \x7bschema\x7d.service_type_categories\nORDER BY name"
    match Database.execute_query ctx store query [] with
    | .ok results => envListOk (convRows results)
    | .error e => envListErr e

/-- Model of `get_amenity_packages`. -/
def get_amenity_packages (ctx : Option String) (store : Store)
    (amenity_code : Option String) (status : Option String) : PyVal :=
  match _check_authentication ctx with
  | some err => err
  | none =>
    let query := "SELECT\nap.package_id,\nap.amenity_id,\na.code as amenity_code,\na.name as amenity_name,\nap.name as package_name,\nap.month_count,\nap.price,\nap.description,\nap.status,\nap.duration_days,\nap.period_unit\nFROM \x7bschema\x7d.amenity_packages ap\nINNER JOIN \x7bschema\x7d.amenities a ON ap.amenity_id = a.amenity_id\nWHERE 1=1"
    let qp : String × List PyVal :=
      if pyTruthy amenity_code then
        (query ++ " AND a.code = ?", [PyVal.str (amenity_code.getD "")])
      else (query, [])
    let qp : String × List PyVal :=
      if pyTruthy status then
        (qp.1 ++ " AND ap.status = ?", qp.2 ++ [PyVal.str (status.getD "")])
      else qp
    let query := qp.1 ++ " ORDER BY a.name, ap.month_count"
    match Database.execute_query ctx store query qp.2 with
    | .ok results => envListOk ((convRows results).map (formatRow "price" "price_formatted"))
    | .error e => envListErr e

/-- Read `v["success"] and v["count"] > 0` off an envelope, as
`get_amenities`/`get_amenity_by_code` do on the result of
`get_amenity_packages`. -/
def envSuccessAndCountPos (v : PyVal) : Bool :=
  match v with
  | .dict kvs =>
    (match PyDict.get? kvs "success", PyDict.get? kvs "count" with
     | some (.bool true), some (.int n) => decide (0 < n)
     | _, _ => false)
  | _ => false

/-- Model of `v["data"]` of an envelope, as a `PyVal`. -/
def envDataPyVal (v : PyVal) : PyVal :=
  match v with
  | .dict kvs => PyDict.getD kvs "data" PyVal.none
  | _ => PyVal.none

/-- Model of `v["data"]` of an envelope, as its list of rows. -/
def envDataRows (v : PyVal) : List Row :=
  match envDataPyVal v with
  | .list items => items.filterMap (fun it => match it with | .dict r => some r | _ => Option.none)
  | _ => []

/-- Model of `v["count"]` of an envelope, as a `PyVal`. -/
def envCountPyVal (v : PyVal) : PyVal :=
  match v with
  | .dict kvs => PyDict.getD kvs "count" PyVal.none
  | _ => PyVal.none

/-- Model of `x.get('price', float('inf'))` as the comparison key of Python's
`min(..., key=...)`: `none` plays the role of `float('inf')` (the abstract
store is assumed to deliver integral prices, see the file comment). -/
def priceKey (r : Row) : Option Int :=
  match PyDict.get? r "price" with
  | some (.int n) => some n
  | _ => Option.none

/-- Strict comparison of `priceKey`s (`none` = `+inf`). -/
def optIntLt : Option Int → Option Int → Bool
  | some a, some b => decide (a < b)
  | some _, Option.none => true
  | Option.none, _ => false

/-- Python `min(rows, key=lambda x: x.get('price', float('inf')))`:
left fold keeping the first row with minimal key. -/
def minByPrice (l : List Row) : Option Row :=
  l.foldl (fun acc r =>
    match acc with
    | Option.none => some r
    | some m => if optIntLt (priceKey r) (priceKey m) then some r else acc) Option.none

/-- The string stored under `k` in a row (`r[k]` where a string is expected). -/
def rowStrVal (r : Row) (k : String) : String :=
  match PyDict.get? r k with
  | some (.str s) => s
  | _ => ""

/-- The per-amenity enrichment loop body of `get_amenities`: when the amenity
advertises a monthly package, fetch its active packages and attach the
cheapest one and the package count; otherwise attach `None`/`0`. -/
def enrichAmenity (ctx : Option String) (store : Store) (amenity : Row) : Row :=
  if (PyDict.getD amenity "has_monthly_package" PyVal.none).isTruthy then
    let packages_result := get_amenity_packages ctx store (some (rowStrVal amenity "code")) (some "ACTIVE")
    if envSuccessAndCountPos packages_result then
      match minByPrice (envDataRows packages_result) with
      | some cheapest =>
        let amenity := PyDict.set amenity "cheapest_package" (.dict
          [("name", PyDict.getD cheapest "package_name" (.str "")),
           ("price", PyDict.getD cheapest "price" (.int 0)),
           ("price_formatted", PyDict.getD cheapest "price_formatted" (.str "0 VND")),
           ("month_count", PyDict.getD cheapest "month_count" (.int 0))])
        PyDict.set amenity "total_packages" (envCountPyVal packages_result)
      | Option.none =>
        -- unreachable: a positive count comes with a non-empty data list
        let amenity := PyDict.set amenity "cheapest_package" PyVal.none
        PyDict.set amenity "total_packages" (.int 0)
    else
      let amenity := PyDict.set amenity "cheapest_package" PyVal.none
      PyDict.set amenity "total_packages" (.int 0)
  else
    let amenity := PyDict.set amenity "cheapest_package" PyVal.none
    PyDict.set amenity "total_packages" (.int 0)

/-- Model of `get_amenities`. -/
def get_amenities (ctx : Option String) (store : Store)
    (category_name : Option String) (status : Option String)
    (has_monthly_package : Option Bool) : PyVal :=
  match _check_authentication ctx with
  | some err => err
  | none =>
    let query := "SELECT\namenity_id,\ncode,\nname,\ncategory_name,\nlocation,\nhas_monthly_package,\nfee_type,\nstatus,\nrequires_face_verification,\nasset_id\nFROM \x7bschema\x7d.amenities\nWHERE is_delete = 0"
    let qp : String × List PyVal :=
      if pyTruthy category_name then
        (query ++ " AND category_name = ?", [PyVal.str (category_name.getD "")])
      else (query, [])
    let qp : String × List PyVal :=
      if pyTruthy status then
        (qp.1 ++ " AND status = ?", qp.2 ++ [PyVal.str (status.getD "")])
      else qp
    let qp : String × List PyVal :=
      match has_monthly_package with
      | some b => (qp.1 ++ " AND has_monthly_package = ?", qp.2 ++ [PyVal.int (if b then 1 else 0)])
      | Option.none => qp
    let query := qp.1 ++ " ORDER BY category_name, name"
    match Database.execute_query ctx store query qp.2 with
    | .ok results => envListOk ((convRows results).map (enrichAmenity ctx store))
    | .error e => envListErr e

/-- Model of `get_amenity_by_code`. -/
def get_amenity_by_code (ctx : Option String) (store : Store) (code : String) : PyVal :=
  match _check_authentication ctx with
  | some err => err
  | none =>
    let query := "SELECT\namenity_id,\ncode,\nname,\ncategory_name,\nlocation,\nhas_monthly_package,\nfee_type,\nstatus,\nrequires_face_verification,\nasset_id\nFROM \x7bschema\x7d.amenities\nWHERE code = ? AND is_delete = 0"
    match Database.execute_query ctx store query [PyVal.str code] with
    | .error e => envErr e
    | .ok results =>
      match convRows results with
      | [] => envErr ("Không tìm thấy tiện ích với mã: " ++ code)
      | amenity_data :: _ =>
        let amenity_data :=
          if (PyDict.getD amenity_data "has_monthly_package" PyVal.none).isTruthy then
            let packages_result := get_amenity_packages ctx store (some code) (some "ACTIVE")
            if envSuccessAndCountPos packages_result then
              let a := PyDict.set amenity_data "packages" (envDataPyVal packages_result)
              PyDict.set a "package_count" (envCountPyVal packages_result)
            else
              let a := PyDict.set amenity_data "packages" (.list [])
              PyDict.set a "package_count" (.int 0)
          else
            let a := PyDict.set amenity_data "packages" (.list [])
            PyDict.set a "package_count" (.int 0)
        .dict [("success", .bool true), ("data", .dict amenity_data)]

/-- Model of `calculate_amenity_package_price`. -/
def calculate_amenity_package_price (ctx : Option String) (store : Store)
    (amenity_code : String) (month_count : Int) : PyVal :=
  match _check_authentication ctx with
  | some err => err
  | none =>
    let query := "SELECT TOP 1\na.code,\na.name as amenity_name,\nap.name as package_name,\nap.month_count,\nap.price,\nap.duration_days,\nap.period_unit\nFROM \x7bschema\x7d.amenity_packages ap\nINNER JOIN \x7bschema\x7d.amenities a ON ap.amenity_id = a.amenity_id\nWHERE a.code = ?\nAND ap.month_count = ?\nAND ap.status = 'ACTIVE'\nORDER BY ap.price ASC"
    match Database.execute_query ctx store query [PyVal.str amenity_code, PyVal.int month_count] with
    | .error e => envErr e
    | .ok results =>
      match convRows results with
      | [] => envErr ("Không tìm thấy gói " ++ toString month_count ++ " tháng cho tiện ích " ++ amenity_code)
      | package :: _ =>
        match PyDict.get? package "price" with
        | some (.int price) =>
          .dict [("success", .bool true),
                 ("data", .dict
                   [("amenity_code", PyDict.getD package "code" PyVal.none),
                    ("amenity_name", PyDict.getD package "amenity_name" PyVal.none),
                    ("package_name", PyDict.getD package "package_name" PyVal.none),
                    ("month_count", PyDict.getD package "month_count" PyVal.none),
                    ("duration_days", PyDict.getD package "duration_days" PyVal.none),
                    ("period_unit", PyDict.getD package "period_unit" PyVal.none),
                    ("price", .int price),
                    ("price_formatted", .str (formatVND price))])]
        | _ => envErr "could not convert price to float"

/-- Model of `get_floors`. -/
def get_floors (ctx : Option String) (store : Store) : PyVal :=
  match _check_authentication ctx with
  | some err => err
  | none =>
    let query := "SELECT\nfloor_id,\nfloor_number,\nname\nFROM \x7bschema\x7d.floors\nORDER BY floor_number"
    match Database.execute_query ctx store query [] with
    | .ok results => envListOk (convRows results)
    | .error e => envListErr e

/-- Model of `get_apartments`.  Note the source's mixed guards: `floor_number`,
`min_bedrooms`, `max_bedrooms`, `min_area`, `max_area` are compared with
`is not None`, while `status` and `apartment_type` use truthiness. -/
def get_apartments (ctx : Option String) (store : Store)
    (floor_number : Option Int) (status : Option String) (apartment_type : Option String)
    (min_bedrooms : Option Int) (max_bedrooms : Option Int)
    (min_area : Option Int) (max_area : Option Int) : PyVal :=
  match _check_authentication ctx with
  | some err => err
  | none =>
    let query := "SELECT\na.apartment_id,\na.floor_id,\nf.floor_number,\nf.name as floor_name,\na.number as apartment_number,\na.area_m2,\na.bedrooms,\na.status,\na.type,\na.created_at,\na.updated_at\nFROM \x7bschema\x7d.apartments a\nINNER JOIN \x7bschema\x7d.floors f ON a.floor_id = f.floor_id\nWHERE 1=1"
    let qp : String × List PyVal :=
      match floor_number with
      | some f => (query ++ " AND f.floor_number = ?", [PyVal.int f])
      | Option.none => (query, [])
    let qp : String × List PyVal :=
      if pyTruthy status then (qp.1 ++ " AND a.status = ?", qp.2 ++ [PyVal.str (status.getD "")])
      else qp
    let qp : String × List PyVal :=
      if pyTruthy apartment_type then (qp.1 ++ " AND a.type = ?", qp.2 ++ [PyVal.str (apartment_type.getD "")])
      else qp
    let qp : String × List PyVal :=
      match min_bedrooms with
      | some n => (qp.1 ++ " AND a.bedrooms >= ?", qp.2 ++ [PyVal.int n])
      | Option.none => qp
    let qp : String × List PyVal :=
      match max_bedrooms with
      | some n => (qp.1 ++ " AND a.bedrooms <= ?", qp.2 ++ [PyVal.int n])
      | Option.none => qp
    let qp : String × List PyVal :=
      match min_area with
      | some n => (qp.1 ++ " AND a.area_m2 >= ?", qp.2 ++ [PyVal.int n])
      | Option.none => qp
    let qp : String × List PyVal :=
      match max_area with
      | some n => (qp.1 ++ " AND a.area_m2 <= ?", qp.2 ++ [PyVal.int n])
      | Option.none => qp
    let query := qp.1 ++ " ORDER BY f.floor_number, a.number"
    match Database.execute_query ctx store query qp.2 with
    | .ok results => envListOk (convRows results)
    | .error e => envListErr e

/-- Model of `get_apartment_by_number`. -/
def get_apartment_by_number (ctx : Option String) (store : Store)
    (apartment_number : String) : PyVal :=
  match _check_authentication ctx with
  | some err => err
  | none =>
    let query := "SELECT\na.apartment_id,\na.floor_id,\nf.floor_number,\nf.name as floor_name,\na.number as apartment_number,\na.area_m2,\na.bedrooms,\na.status,\na.type,\na.image,\na.created_at,\na.updated_at\nFROM \x7bschema\x7d.apartments a\nINNER JOIN \x7bschema\x7d.floors f ON a.floor_id = f.floor_id\nWHERE a.number = ?"
    match Database.execute_query ctx store query [PyVal.str apartment_number] with
    | .error e => envErr e
    | .ok results =>
      match convRows results with
      | [] => envErr ("Không tìm thấy căn hộ số: " ++ apartment_number)
      | r :: _ => .dict [("success", .bool true), ("data", .dict r)]

/-- Model of `get_available_apartments`: literally `get_apartments` with
`status="AVAILABLE"` and the two forwarded filters. -/
def get_available_apartments (ctx : Option String) (store : Store)
    (apartment_type : Option String) (min_bedrooms : Option Int) : PyVal :=
  get_apartments ctx store Option.none (some "AVAILABLE") apartment_type
    min_bedrooms Option.none Option.none Option.none

/-- Model of `get_apartment_statistics`.  `round(·, 2)` on the integral model of
`avg_area` is the identity. -/
def get_apartment_statistics (ctx : Option String) (store : Store) : PyVal :=
  match _check_authentication ctx with
  | some err => err
  | none =>
    let query := "SELECT\nCOUNT(*) as total_apartments,\nSUM(CASE WHEN status = 'AVAILABLE' THEN 1 ELSE 0 END) as available,\nSUM(CASE WHEN status = 'OCCUPIED' THEN 1 ELSE 0 END) as occupied,\nSUM(CASE WHEN status = 'RESERVED' THEN 1 ELSE 0 END) as reserved,\nSUM(CASE WHEN status = 'MAINTENANCE' THEN 1 ELSE 0 END) as maintenance,\nAVG(CAST(area_m2 AS FLOAT)) as avg_area,\nMIN(area_m2) as min_area,\nMAX(area_m2) as max_area\nFROM \x7bschema\x7d.apartments"
    match Database.execute_query ctx store query [] with
    | .error e => envErr e
    | .ok results =>
      match convRows results with
      | [] => envErr "Không có dữ liệu thống kê"
      | stats :: _ =>
        .dict [("success", .bool true),
               ("data", .dict
                 [("total_apartments", PyDict.getD stats "total_apartments" (.int 0)),
                  ("available", PyDict.getD stats "available" (.int 0)),
                  ("occupied", PyDict.getD stats "occupied" (.int 0)),
                  ("reserved", PyDict.getD stats "reserved" (.int 0)),
                  ("maintenance", PyDict.getD stats "maintenance" (.int 0)),
                  ("avg_area_m2", PyDict.getD stats "avg_area" (.int 0)),
                  ("min_area_m2", PyDict.getD stats "min_area" (.int 0)),
                  ("max_area_m2", PyDict.getD stats "max_area" (.int 0))])]

end ApartmentAPI

/-! ## `auth/jwt_handler.py`

`verify_keycloak_token` wraps the external pyjwt decode and is modelled as an
abstract resolver `Verify` (its failures are the `ValueError`s the middleware
catches).  `extract_building_id` and `get_schema_from_building_id` are
embedded from the source.  The dynamically-typed token payload is modelled
with typed fields: claim values are strings (`None` ↦ `none`, with `""` a
possible, falsy, value), `custom_claims` is a string dict,
`realm_access.roles` a string list (the source's `isinstance(realm_access,
dict)` guard holds on this representation), and `resource_access` is omitted
because the source only logs it. -/

/-- A verified token payload (see the section comment for the modelling of
the Python dict). -/
structure TokenPayload where
  building_id : Option String
  custom_claims : List (String × String)
  realm_access_roles : List String
deriving DecidableEq, Repr

/-- The external token resolver: `verify_keycloak_token`.  An `.error` is the
`ValueError` it raises on a malformed/expired/unverifiable token. -/
abbrev Verify := String → Except String TokenPayload

/-- Model of `custom_claims.get('building_id')` (a plain string dict lookup). -/
def customClaimsGet (kvs : List (String × String)) (k : String) : Option String :=
  (kvs.find? (fun e => e.1 == k)).map (fun e => e.2)

/-- Model of `extract_building_id`: direct claim field, then `custom_claims` (only
consulted when that dict is truthy, i.e. non-empty), then the first
`realm_access` role whose lowercased name contains `"building"`; the
running value survives to the final `return` when nothing truthy is found. -/
def extract_building_id (p : TokenPayload) : Option String :=
  let building_id := p.building_id
  if pyTruthy building_id then building_id
  else
    let building_id :=
      if !p.custom_claims.isEmpty then customClaimsGet p.custom_claims "building_id"
      else building_id
    if pyTruthy building_id then building_id
    else
      match p.realm_access_roles.find? (fun role => pyInStr "building" (pyLower role)) with
      | some role => some role
      | Option.none => building_id

/-- Model of `get_schema_from_building_id`: the identity (`building_id = schema_name`
per the source comment). -/
def get_schema_from_building_id (building_id : String) : String := building_id

/-! ## `middleware/auth_middleware.py` — `JWTAuthMiddleware.dispatch`

The downstream ASGI chain `call_next` is modelled as a handler receiving the
tenant context the middleware bound (that is how the endpoints observe the
`ContextVar`) and either returning a response or raising.  `dispatch` is a
function of the request, the resolver, the handler and the context value at
entry; it returns the handler's outcome, the context value after the
middleware finishes, and the `request.state` fields it set. -/

/-- The `request.state` fields the middleware sets on non-public paths. -/
structure ReqState where
  is_authenticated : Bool
  schema_name : Option String
  building_id : Option String
deriving DecidableEq, Repr

/-- An inbound request as the middleware sees it. -/
structure MwRequest where
  path : String
  authorization : Option String
deriving DecidableEq, Repr

/-- The downstream handler (`call_next` plus everything behind it), reading
the bound tenant context; `.error` is an exception escaping the handler. -/
abbrev Handler (ρ : Type) := Option String → Except String ρ

/-- What `dispatch` leaves behind: the response (or propagated exception),
the tenant context after the middleware returns, and `request.state`
(`none` on the public-endpoint path, which sets no state). -/
structure DispatchOut (ρ : Type) where
  result : Except String ρ
  ctxAfter : Option String
  state : Option ReqState

def PUBLIC_ENDPOINTS : List String := ["/", "/health", "/docs", "/openapi.json", "/redoc"]

/-- Model of `auth_header.split(" ")[1]`. -/
def tokenOf (h : String) : String := ((pySplitSpace h).get? 1).getD ""

namespace JWTAuthMiddleware

/-- Model of `JWTAuthMiddleware.dispatch`.  Every branch binds the context before
`call_next`; no branch clears it afterwards — the context value at entry
(`ctx0`) is overwritten on every path and the bound value is what remains
after the request, whether the handler returns or raises. -/
def dispatch (req : MwRequest) (verify : Verify) (callNext : Handler ρ)
    (ctx0 : Option String) : DispatchOut ρ :=
  if PUBLIC_ENDPOINTS.contains req.path then
    { result := callNext Option.none, ctxAfter := Option.none, state := Option.none }
  else
    if !(pyTruthy req.authorization) || !(pyStartsWith (req.authorization.getD "") "Bearer ") then
      { result := callNext Option.none, ctxAfter := Option.none,
        state := some ⟨false, Option.none, Option.none⟩ }
    else
      let token := tokenOf (req.authorization.getD "")
      match verify token with
      | .error _ =>
        -- `except ValueError` / `except Exception`: clear and continue
        { result := callNext Option.none, ctxAfter := Option.none,
          state := some ⟨false, Option.none, Option.none⟩ }
      | .ok payload =>
        let building_id := extract_building_id payload
        if pyTruthy building_id then
          let schema_name := get_schema_from_building_id (building_id.getD "")
          { result := callNext (some schema_name), ctxAfter := some schema_name,
            state := some ⟨true, some schema_name, building_id⟩ }
        else
          { result := callNext Option.none, ctxAfter := Option.none,
            state := some ⟨false, Option.none, Option.none⟩ }

end JWTAuthMiddleware

/-- The tenant the middleware binds for a request — the value `dispatch`
leaves in the context on every exit path (characterisation used by the
amended claim C4). -/
def boundSchemaFor (req : MwRequest) (verify : Verify) : Option String :=
  if PUBLIC_ENDPOINTS.contains req.path then Option.none
  else
    if !(pyTruthy req.authorization) || !(pyStartsWith (req.authorization.getD "") "Bearer ") then
      Option.none
    else
      match verify (tokenOf (req.authorization.getD "")) with
      | .error _ => Option.none
      | .ok payload =>
        let building_id := extract_building_id payload
        if pyTruthy building_id then some (get_schema_from_building_id (building_id.getD ""))
        else Option.none

/-! ## `gemini_bot.py` — the chatbot and its function-calling loop

The Gemini model is an external collaborator.  A reply of
`chat_session.send_message` either carries plain text or (first part) a
function call; the orchestration of one user turn is driven by the finite
script of replies the model produces for that turn, consumed one reply per
`send_message`.  The realised `FUNCTION_MAP` dispatch (binding Python kwargs
and running the `ApartmentAPI` method) is abstracted as `Api`; an `.error`
is an exception raised during the call (for example a `TypeError` from a
keyword-argument mismatch), which the source's outer `except` turns into a
failure result for the whole turn. -/

/-- One reply of the reasoning capability: terminal text or a structured
function call (`name` may be empty or blank — the source guards on that). -/
inductive ModelResponse where
  | text : String → ModelResponse
  | funCall : String → List (String × PyVal) → ModelResponse

/-- Model of `has_function_call(resp)`. -/
def has_function_call : ModelResponse → Bool
  | .text _ => false
  | .funCall _ _ => true

/-- The SDK accessor `response.text`: raises when the final response still
holds a function call (`Could not convert part.function_call to text`). -/
def responseText : ModelResponse → Except String String
  | .text t => .ok t
  | .funCall _ _ => .error "Could not convert part.function_call to text"

/-- The names of the operation catalog: the keys of `FUNCTION_MAP` (equally
the names of `FUNCTION_DECLARATIONS`, in source order). -/
def FUNCTION_MAP_keys : List String :=
  ["get_service_types", "get_service_prices", "calculate_service_fee",
   "get_service_categories", "get_amenities", "get_amenity_by_code",
   "get_amenity_packages", "calculate_amenity_package_price", "get_floors",
   "get_apartments", "get_apartment_by_number", "get_available_apartments",
   "get_apartment_statistics"]

/-- The declared parameter schemas of `FUNCTION_DECLARATIONS`: for each
operation name, its `required` parameter names (the only hard constraint the
declarations impose; optional parameters and types are advisory to the
model). -/
def FUNCTION_DECLARATIONS_required : List (String × List String) :=
  [("get_service_types", []), ("get_service_prices", []),
   ("calculate_service_fee", ["service_code"]), ("get_service_categories", []),
   ("get_amenities", []), ("get_amenity_by_code", ["code"]),
   ("get_amenity_packages", []),
   ("calculate_amenity_package_price", ["amenity_code", "month_count"]),
   ("get_floors", []), ("get_apartments", []),
   ("get_apartment_by_number", ["apartment_number"]),
   ("get_available_apartments", []), ("get_apartment_statistics", [])]

/-- Whether an argument mapping satisfies the declared schema of an
operation: the operation is declared and every `required` parameter name is
supplied.  (Formalisation of the claim's "arguments satisfy the declared
parameter schema"; the source performs no such check.) -/
def argsSatisfySchema (name : String) (args : List (String × PyVal)) : Bool :=
  match FUNCTION_DECLARATIONS_required.find? (fun e => e.1 == name) with
  | some (_, req) => req.all (fun k => PyDict.hasKey args k)
  | Option.none => false

/-- The realised `FUNCTION_MAP` dispatch: run the named `ApartmentAPI`
method on the given kwargs.  `.error` is an exception raised by the call. -/
abbrev Api := String → List (String × PyVal) → Except String PyVal

/-- The chatbot state held per session.  `tools` is the operation catalog
advertised to the model at construction (`FUNCTION_DECLARATIONS` when
authenticated, nothing otherwise); `chat_session` is the accumulated
conversation, `none` before the first turn and after a reset. -/
structure Chatbot where
  schema_name : Option String
  is_authenticated : Bool
  tools : List String
  chat_session : Option (List String)
deriving DecidableEq, Repr

/-- Model of `GeminiChatbot.__init__`: authenticated construction advertises the full
catalog, unauthenticated construction advertises no tools; no conversation
exists yet. -/
def mkChatbot (schema_name : Option String) : Chatbot :=
  let is_authenticated := schema_name.isSome
  { schema_name := schema_name
  , is_authenticated := is_authenticated
  , tools := if is_authenticated then FUNCTION_MAP_keys else []
  , chat_session := Option.none }

/-- Model of `GeminiChatbot.start_new_conversation`. -/
def startNewConversation (bot : Chatbot) : Chatbot :=
  { bot with chat_session := Option.none }

/-- The observable trace of one turn's loop: the `function_calls_log`, the
`all_data` dict, the trace of actual `FUNCTION_MAP` dispatches (the data
operations executed), and the function responses sent back to the model. -/
structure LoopAcc where
  log : List (String × List (String × PyVal))
  data : List (String × PyVal)
  dispatches : List (String × List (String × PyVal))
  sent : List (String × PyVal)

def LoopAcc.empty : LoopAcc := ⟨[], [], [], []⟩

/-- How the loop ends: normally, holding the response whose text becomes the
answer, or by an exception (an `Api` failure, or the script running out —
the model is modelled as a finite script, see the section comment). -/
inductive LoopOut where
  | done : LoopAcc → ModelResponse → LoopOut
  | raised : LoopAcc → String → LoopOut

/-- One iteration of the `while has_function_call(response)` loop of
`GeminiChatbot.chat`, up to (and including) recording the function response
sent back to the model: either the loop ends now (`exit`), or the model must
be asked again with the accumulated trace (`again`). -/
inductive StepOut where
  | exit : LoopOut → StepOut
  | again : LoopAcc → StepOut

/-- The loop body, in source order: the `has_function_call` test, the
authentication double-check, the blank-name check, the log append, then
catalog lookup — a known name is dispatched through the realised
`FUNCTION_MAP` (an exception there aborts the turn), an unknown name
produces an error dict instead of a dispatch; either way the result is sent
back and the loop continues. -/
def loopStep (is_authenticated : Bool) (api : Api) (resp : ModelResponse)
    (acc : LoopAcc) : StepOut :=
  match resp with
  | .text _ => .exit (.done acc resp)
  | .funCall function_name function_args =>
    if !is_authenticated then .exit (.done acc resp)
    else if function_name == "" || pyStrip function_name == "" then .exit (.done acc resp)
    else
      let acc := { acc with log := acc.log ++ [(function_name, function_args)] }
      if FUNCTION_MAP_keys.contains function_name then
        match api function_name function_args with
        | .error e => .exit (.raised acc e)
        | .ok api_result =>
          let acc := { acc with
            dispatches := acc.dispatches ++ [(function_name, function_args)],
            data := PyDict.set acc.data function_name api_result,
            sent := acc.sent ++ [(function_name, PyVal.dict [("result", api_result)])] }
          if function_name == "" || pyStrip function_name == "" then .exit (.done acc resp)
          else .again acc
      else
        let api_result := PyVal.dict [("error", .str ("Function " ++ function_name ++ " not found"))]
        let acc := { acc with
          sent := acc.sent ++ [(function_name, PyVal.dict [("result", api_result)])] }
        if function_name == "" || pyStrip function_name == "" then .exit (.done acc resp)
        else .again acc

/-- The `while has_function_call(response)` loop, consuming the script of
model replies one `send_message` at a time. -/
def runLoop (is_authenticated : Bool) (api : Api) (resp : ModelResponse)
    (script : List ModelResponse) (acc : LoopAcc) : LoopOut :=
  match loopStep is_authenticated api resp acc with
  | .exit out => out
  | .again acc =>
    match script with
    | [] => .raised acc "no scripted model response"
    | next :: rest => runLoop is_authenticated api next rest acc

/-- The result of one user turn.  `success`/`response`/`function_calls`/
`data`/`error` are the envelope fields of the source (on the exception path
the source omits `function_calls` and `data`, modelled as `[]`);
`dispatches` and `sent` are the loop's observable traces, kept even when the
turn ends in an exception because the side effects have already happened. -/
structure ChatResult where
  success : Bool
  response : String
  function_calls : List (String × List (String × PyVal))
  data : List (String × PyVal)
  error : Option String
  dispatches : List (String × List (String × PyVal))
  sent : List (String × PyVal)

/-- Model of `GeminiChatbot.chat` for one user turn: `first` is the model's reply to
the user message, `rest` the replies to subsequent function responses. -/
def Chatbot.chat (bot : Chatbot) (api : Api) (first : ModelResponse)
    (rest : List ModelResponse) : ChatResult :=
  match runLoop bot.is_authenticated api first rest LoopAcc.empty with
  | .raised acc e =>
    { success := false, response := "Xin lỗi, có lỗi xảy ra: " ++ e,
      function_calls := [], data := [], error := some e,
      dispatches := acc.dispatches, sent := acc.sent }
  | .done acc last =>
    match responseText last with
    | .error e =>
      { success := false, response := "Xin lỗi, có lỗi xảy ra: " ++ e,
        function_calls := [], data := [], error := some e,
        dispatches := acc.dispatches, sent := acc.sent }
    | .ok final_response =>
      { success := true, response := final_response,
        function_calls := acc.log, data := acc.data, error := Option.none,
        dispatches := acc.dispatches, sent := acc.sent }

/-! ## `app.py` — the session registry

`chat_sessions` maps a session id to `(GeminiChatbot, schema_name)`.  The
dict is modelled as an association list with shadowing semantics
(`PyDict.set`/`get?`/`erase`); a fresh `uuid4` is passed in as `freshId`. -/

/-- Python `del d[k]`. -/
def PyDict.erase (l : List (String × α)) (k : String) : List (String × α) :=
  l.filter (fun e => e.1 != k)

/-- The registry: session id ↦ (chatbot, bound tenant). -/
abbrev Sessions := List (String × (Chatbot × Option String))

/-- What the `/chat` endpoint's session-handling block produces: the updated
registry, the session id answered to the caller, and the chatbot that will
run the turn. -/
structure ResolveOut where
  sessions : Sessions
  session_id : String
  bot : Chatbot

/-- The session-handling block of the `/chat` endpoint (`app.py`, cases 1–3):
no bound tenant ⇒ discard any session stored under the supplied id and mint
a fresh unauthenticated session under a new id; bound tenant with unknown or
missing id ⇒ create; bound tenant with a known id ⇒ reuse, except that a
tenant mismatch resets the conversation and rebinds by replacing the chatbot
with a freshly constructed one.  (`session_id` truthiness follows the
source: `None` and `""` count as absent.) -/
def chatSessionResolve (sessions : Sessions) (schema_name : Option String)
    (req_session_id : Option String) (freshId : String) : ResolveOut :=
  match schema_name with
  | Option.none =>
    let sessions :=
      if pyTruthy req_session_id && PyDict.hasKey sessions (req_session_id.getD "") then
        PyDict.erase sessions (req_session_id.getD "")
      else sessions
    let session_id := freshId
    let chatbot := mkChatbot Option.none
    ⟨PyDict.set sessions session_id (chatbot, Option.none), session_id, chatbot⟩
  | some s =>
    if !(pyTruthy req_session_id) || !(PyDict.hasKey sessions (req_session_id.getD "")) then
      let session_id := if !(pyTruthy req_session_id) then freshId else req_session_id.getD ""
      let chatbot := mkChatbot (some s)
      ⟨PyDict.set sessions session_id (chatbot, some s), session_id, chatbot⟩
    else
      let session_id := req_session_id.getD ""
      match PyDict.get? sessions session_id with
      | some (chatbot, old_schema) =>
        if old_schema ≠ some s then
          -- the stored bot's conversation is cleared (`start_new_conversation`)
          -- and the bot then replaced wholesale by a fresh one
          let chatbot := mkChatbot (some s)
          ⟨PyDict.set sessions session_id (chatbot, some s), session_id, chatbot⟩
        else ⟨sessions, session_id, chatbot⟩
      | Option.none =>
        -- unreachable: guarded by `PyDict.hasKey`
        ⟨sessions, session_id, mkChatbot (some s)⟩

/-- Model of `POST /session/new`: always allocates a fresh id bound to the current
context's tenant. -/
def createSession (sessions : Sessions) (schema_name : Option String)
    (freshId : String) : Sessions × String :=
  (PyDict.set sessions freshId (mkChatbot schema_name, schema_name), freshId)

/-- Model of `POST /session/{id}/reset`: clears the stored bot's conversation,
keeping id and tenant; `false` models the 404. -/
def resetSession (sessions : Sessions) (session_id : String) : Sessions × Bool :=
  match PyDict.get? sessions session_id with
  | some (chatbot, schema_name) =>
    (PyDict.set sessions session_id (startNewConversation chatbot, schema_name), true)
  | Option.none => (sessions, false)

/-- Model of `DELETE /session/{id}`; `false` models the 404. -/
def deleteSession (sessions : Sessions) (session_id : String) : Sessions × Bool :=
  if PyDict.hasKey sessions session_id then (PyDict.erase sessions session_id, true)
  else (sessions, false)

/-! ## Association-list facts used by the session-registry proofs -/

theorem find?_filter_ne {α : Type} (k k' : String) (h : k' ≠ k) :
    ∀ l : List (String × α),
      List.find? (fun e => e.1 == k') (List.filter (fun e => e.1 != k) l)
        = List.find? (fun e => e.1 == k') l := by
  intro l
  induction l with
  | nil => rfl
  | cons a t ih =>
    by_cases ha : a.1 = k
    · rw [List.filter_cons_of_neg (by simp [ha])]
      rw [List.find?_cons_of_neg _ (by simp [ha]; exact Ne.symm h)]
      exact ih
    · rw [List.filter_cons_of_pos (by simp [ha])]
      by_cases hk' : a.1 = k'
      · rw [List.find?_cons_of_pos _ (by simp [hk']),
            List.find?_cons_of_pos _ (by simp [hk'])]
      · rw [List.find?_cons_of_neg _ (by simp [hk']),
            List.find?_cons_of_neg _ (by simp [hk'])]
        exact ih

theorem PyDict.get?_set_self {α : Type} (l : List (String × α)) (k : String) (v : α) :
    PyDict.get? (PyDict.set l k v) k = some v := by
  simp only [PyDict.get?, PyDict.set]
  rw [List.find?_cons_of_pos _ (by simp)]
  rfl

theorem PyDict.get?_set_ne {α : Type} (l : List (String × α)) (k k' : String) (v : α)
    (h : k' ≠ k) : PyDict.get? (PyDict.set l k v) k' = PyDict.get? l k' := by
  simp only [PyDict.get?, PyDict.set]
  rw [List.find?_cons_of_neg _ (by simp; exact Ne.symm h), find?_filter_ne k k' h]

theorem PyDict.get?_erase_self {α : Type} (l : List (String × α)) (k : String) :
    PyDict.get? (PyDict.erase l k) k = Option.none := by
  simp only [PyDict.get?, PyDict.erase]
  induction l with
  | nil => rfl
  | cons a t ih =>
    by_cases ha : a.1 = k
    · rw [List.filter_cons_of_neg (by simp [ha])]
      exact ih
    · rw [List.filter_cons_of_pos (by simp [ha])]
      rw [List.find?_cons_of_neg _ (by simp [ha])]
      exact ih

theorem PyDict.get?_erase_ne {α : Type} (l : List (String × α)) (k k' : String)
    (h : k' ≠ k) : PyDict.get? (PyDict.erase l k) k' = PyDict.get? l k' := by
  simp only [PyDict.get?, PyDict.erase]
  rw [find?_filter_ne k k' h]

theorem PyDict.hasKey_iff_get? {α : Type} (l : List (String × α)) (k : String) :
    PyDict.hasKey l k = (PyDict.get? l k).isSome := by
  simp [PyDict.hasKey, PyDict.get?]

/-! ## Unfolding lemmas for the orchestration loop -/

theorem runLoop_text (is_authenticated : Bool) (api : Api) (t : String)
    (script : List ModelResponse) (acc : LoopAcc) :
    runLoop is_authenticated api (.text t) script acc = .done acc (.text t) := by
  cases script <;> rfl

theorem runLoop_funCall_unauth (api : Api) (n : String) (args : List (String × PyVal))
    (script : List ModelResponse) (acc : LoopAcc) :
    runLoop false api (.funCall n args) script acc = .done acc (.funCall n args) := by
  cases script <;> rfl

/-! ## The claims -/

/-- C1: with no tenant bound (`ctx = none`), `Database.execute_query` and
`execute_non_query` fail with the distinct no-tenant `ValueError` — for
every store, so the store is never consulted and no default partition is
touched — and every one of the thirteen `ApartmentAPI` operations returns
the authentication-failure envelope unchanged. -/
theorem c1_no_tenant_blocks_every_data_operation :
    (∀ (store : Store) (q : String) (p : List PyVal),
        Database.execute_query Option.none store q p = .error noTenantMsg) ∧
    (∀ (store : Store) (q : String) (p : List PyVal),
        Database.execute_non_query Option.none store q p = .error noTenantMsg) ∧
    (∀ store c, ApartmentAPI.get_service_types Option.none store c = authErrorEnvelope) ∧
    (∀ store c b, ApartmentAPI.get_service_prices Option.none store c b = authErrorEnvelope) ∧
    (∀ store c q, ApartmentAPI.calculate_service_fee Option.none store c q = authErrorEnvelope) ∧
    (∀ store, ApartmentAPI.get_service_categories Option.none store = authErrorEnvelope) ∧
    (∀ store c s m, ApartmentAPI.get_amenities Option.none store c s m = authErrorEnvelope) ∧
    (∀ store c, ApartmentAPI.get_amenity_by_code Option.none store c = authErrorEnvelope) ∧
    (∀ store c s, ApartmentAPI.get_amenity_packages Option.none store c s = authErrorEnvelope) ∧
    (∀ store c m, ApartmentAPI.calculate_amenity_package_price Option.none store c m = authErrorEnvelope) ∧
    (∀ store, ApartmentAPI.get_floors Option.none store = authErrorEnvelope) ∧
    (∀ store f s t mb xb ma xa,
        ApartmentAPI.get_apartments Option.none store f s t mb xb ma xa = authErrorEnvelope) ∧
    (∀ store n, ApartmentAPI.get_apartment_by_number Option.none store n = authErrorEnvelope) ∧
    (∀ store t mb, ApartmentAPI.get_available_apartments Option.none store t mb = authErrorEnvelope) ∧
    (∀ store, ApartmentAPI.get_apartment_statistics Option.none store = authErrorEnvelope) :=
  ⟨fun _ _ _ => rfl, fun _ _ _ => rfl, fun _ _ => rfl, fun _ _ _ => rfl,
   fun _ _ _ => rfl, fun _ => rfl, fun _ _ _ _ => rfl, fun _ _ => rfl,
   fun _ _ _ => rfl, fun _ _ _ => rfl, fun _ => rfl,
   fun _ _ _ _ _ _ _ _ => rfl, fun _ _ => rfl, fun _ _ _ => rfl, fun _ => rfl⟩

/-- C10: `get_available_apartments` is exactly `get_apartments` with
`status = "AVAILABLE"` and the same `apartment_type`/`min_bedrooms`, for
every tenant context and every store — authentication and error behaviour
included. -/
theorem c10_available_is_specialised_get_apartments :
    ∀ (ctx : Option String) (store : Store) (apartment_type : Option String)
      (min_bedrooms : Option Int),
      ApartmentAPI.get_available_apartments ctx store apartment_type min_bedrooms
        = ApartmentAPI.get_apartments ctx store Option.none (some "AVAILABLE")
            apartment_type min_bedrooms Option.none Option.none Option.none :=
  fun _ _ _ _ => rfl

/-- C2: an unauthenticated chatbot advertises no operation catalog, and no
turn of such a session dispatches a data operation or sends a function
response back to the model — whatever replies (including operation
requests) the reasoning capability produces. -/
theorem c2_unauthenticated_session_never_dispatches :
    (mkChatbot Option.none).tools = [] ∧
    ∀ (api : Api) (first : ModelResponse) (rest : List ModelResponse),
      ((mkChatbot Option.none).chat api first rest).dispatches = [] ∧
      ((mkChatbot Option.none).chat api first rest).sent = [] ∧
      ((mkChatbot Option.none).chat api first rest).function_calls = [] := by
  refine ⟨rfl, fun api first rest => ?_⟩
  cases first with
  | text t =>
    simp only [Chatbot.chat, mkChatbot, Option.isSome_none, runLoop_text]
    exact ⟨rfl, rfl, rfl⟩
  | funCall n args =>
    simp only [Chatbot.chat, mkChatbot, Option.isSome_none, runLoop_funCall_unauth]
    exact ⟨rfl, rfl, rfl⟩

/-- Number of data operations dispatched in a loop outcome. -/
def LoopOut.dispLen : LoopOut → Nat
  | .done acc _ => acc.dispatches.length
  | .raised acc _ => acc.dispatches.length

/-- Number of data operations dispatched after one loop iteration. -/
def StepOut.dispLen : StepOut → Nat
  | .exit out => out.dispLen
  | .again acc => acc.dispatches.length

theorem runLoop_cons_again (auth : Bool) (api : Api) (resp next : ModelResponse)
    (rest : List ModelResponse) (acc acc' : LoopAcc)
    (h : loopStep auth api resp acc = .again acc') :
    runLoop auth api resp (next :: rest) acc = runLoop auth api next rest acc' := by
  conv_lhs => rw [runLoop.eq_def]
  rw [h]

theorem runLoop_exit (auth : Bool) (api : Api) (resp : ModelResponse)
    (script : List ModelResponse) (acc : LoopAcc) (out : LoopOut)
    (h : loopStep auth api resp acc = .exit out) :
    runLoop auth api resp script acc = out := by
  cases script <;> (conv_lhs => rw [runLoop.eq_def]) <;> rw [h]

/-- A single loop iteration dispatches at most one operation. -/
theorem loopStep_dispLen_le (auth : Bool) (api : Api) (resp : ModelResponse)
    (acc : LoopAcc) : (loopStep auth api resp acc).dispLen ≤ acc.dispatches.length + 1 := by
  cases resp with
  | text t =>
    have h : loopStep auth api (.text t) acc = .exit (.done acc (.text t)) := rfl
    rw [h]
    simp only [StepOut.dispLen, LoopOut.dispLen]
    omega
  | funCall n args =>
    unfold loopStep
    dsimp only
    split
    · simp only [StepOut.dispLen, LoopOut.dispLen]; omega
    · split
      · simp only [StepOut.dispLen, LoopOut.dispLen]; omega
      · split
        · split
          · simp only [StepOut.dispLen, LoopOut.dispLen]; omega
          · simp only [StepOut.dispLen, List.length_append, List.length_cons,
              List.length_nil]
            omega
        · simp only [StepOut.dispLen]; omega

/-- The loop dispatches at most one operation per scripted model reply:
`|script| + 1` replies are consumed at most, each dispatching at most once. -/
theorem runLoop_dispLen_le (auth : Bool) (api : Api) :
    ∀ (script : List ModelResponse) (resp : ModelResponse) (acc : LoopAcc),
      (runLoop auth api resp script acc).dispLen
        ≤ acc.dispatches.length + script.length + 1 := by
  intro script
  induction script with
  | nil =>
    intro resp acc
    have h := loopStep_dispLen_le auth api resp acc
    cases hs : loopStep auth api resp acc with
    | exit out =>
      rw [runLoop_exit auth api resp [] acc out hs]
      rw [hs] at h
      simpa [StepOut.dispLen] using h
    | again acc' =>
      simp only [runLoop, hs, List.length_nil]
      rw [hs] at h
      simp only [StepOut.dispLen] at h
      simpa [LoopOut.dispLen] using h
  | cons next rest ih =>
    intro resp acc
    have h := loopStep_dispLen_le auth api resp acc
    cases hs : loopStep auth api resp acc with
    | exit out =>
      rw [runLoop_exit auth api resp (next :: rest) acc out hs]
      rw [hs] at h
      simp only [StepOut.dispLen] at h
      omega
    | again acc' =>
      rw [runLoop_cons_again auth api resp next rest acc acc' hs]
      have h2 := ih next acc'
      rw [hs] at h
      simp only [StepOut.dispLen] at h
      simp only [List.length_cons]
      omega

/-- A reasoning capability that requests the same catalog operation `n`
times before answering, used to exhibit the absence of a dispatch ceiling. -/
def greedyScript (n : Nat) : List ModelResponse :=
  List.replicate n (.funCall "get_floors" []) ++ [.text "done"]

/-- A realised dispatch that always succeeds with an empty dict. -/
def okApi : Api := fun _ _ => .ok (PyVal.dict [])

theorem loopStep_greedy (acc : LoopAcc) :
    loopStep true okApi (.funCall "get_floors" []) acc
      = .again ⟨acc.log ++ [("get_floors", [])],
                PyDict.set acc.data "get_floors" (PyVal.dict []),
                acc.dispatches ++ [("get_floors", [])],
                acc.sent ++ [("get_floors", PyVal.dict [("result", PyVal.dict [])])]⟩ := rfl

theorem greedy_run (n : Nat) : ∀ acc : LoopAcc,
    ∃ acc' : LoopAcc,
      runLoop true okApi (.funCall "get_floors" []) (greedyScript n) acc
          = .done acc' (.text "done")
        ∧ acc'.dispatches.length = acc.dispatches.length + (n + 1) := by
  induction n with
  | zero =>
    intro acc
    refine ⟨⟨acc.log ++ [("get_floors", [])],
      PyDict.set acc.data "get_floors" (PyVal.dict []),
      acc.dispatches ++ [("get_floors", [])],
      acc.sent ++ [("get_floors", PyVal.dict [("result", PyVal.dict [])])]⟩, ?_, ?_⟩
    · show runLoop true okApi (.funCall "get_floors" []) (.text "done" :: []) acc = _
      rw [runLoop_cons_again _ _ _ _ _ _ _ (loopStep_greedy acc), runLoop_text]
    · simp
  | succ n ih =>
    intro acc
    have hg : greedyScript (n + 1)
        = ModelResponse.funCall "get_floors" [] :: greedyScript n := by
      simp [greedyScript, List.replicate_succ]
    obtain ⟨acc', h1, h2⟩ := ih ⟨acc.log ++ [("get_floors", [])],
      PyDict.set acc.data "get_floors" (PyVal.dict []),
      acc.dispatches ++ [("get_floors", [])],
      acc.sent ++ [("get_floors", PyVal.dict [("result", PyVal.dict [])])]⟩
    refine ⟨acc', ?_, ?_⟩
    · rw [hg, runLoop_cons_again _ _ _ _ _ _ _ (loopStep_greedy acc), h1]
    · simp only [List.length_append, List.length_cons, List.length_nil] at h2
      omega

theorem chat_dispLen (bot : Chatbot) (api : Api) (first : ModelResponse)
    (rest : List ModelResponse) :
    (bot.chat api first rest).dispatches.length
      = (runLoop bot.is_authenticated api first rest LoopAcc.empty).dispLen := by
  unfold Chatbot.chat
  cases hrun : runLoop bot.is_authenticated api first rest LoopAcc.empty with
  | raised acc e => simp [LoopOut.dispLen]
  | done acc last =>
    cases last with
    | text t => simp [responseText, LoopOut.dispLen]
    | funCall n args => simp [responseText, LoopOut.dispLen]

/-- C3 counterexample: the orchestration loop has no dispatch ceiling — no
bound `C` caps the number of operations one turn can dispatch, because a
capability that keeps returning operation requests forces one dispatch per
request. -/
theorem c3_cex_no_dispatch_ceiling :
    ¬ ∃ C : Nat, ∀ (api : Api) (first : ModelResponse) (rest : List ModelResponse),
        ((mkChatbot (some "buildingA")).chat api first rest).dispatches.length ≤ C := by
  rintro ⟨C, hC⟩
  obtain ⟨acc', hrun, hlen⟩ := greedy_run C LoopAcc.empty
  have hchat : ((mkChatbot (some "buildingA")).chat okApi (.funCall "get_floors" [])
      (greedyScript C)).dispatches = acc'.dispatches := by
    unfold Chatbot.chat
    have hbot : (mkChatbot (some "buildingA")).is_authenticated = true := rfl
    rw [hbot, hrun]
    rfl
  have hle := hC okApi (.funCall "get_floors" []) (greedyScript C)
  rw [hchat] at hle
  have h0 : LoopAcc.empty.dispatches.length = 0 := rfl
  omega

/-- C3 amended: the loop has no fixed dispatch ceiling; the only bound is
the capability's own behaviour — at most one dispatch per model reply
(`rest.length + 1` replies exist), and a capability issuing `n + 1`
consecutive operation requests gets exactly `n + 1` dispatches before the
turn ends, successfully, with the capability's final text (no fallback
response). -/
theorem c3_amended_one_dispatch_per_model_reply :
    (∀ (bot : Chatbot) (api : Api) (first : ModelResponse) (rest : List ModelResponse),
        (bot.chat api first rest).dispatches.length ≤ rest.length + 1) ∧
    (∀ n : Nat,
        ((mkChatbot (some "buildingA")).chat okApi (.funCall "get_floors" [])
            (greedyScript n)).dispatches.length = n + 1 ∧
        ((mkChatbot (some "buildingA")).chat okApi (.funCall "get_floors" [])
            (greedyScript n)).success = true ∧
        ((mkChatbot (some "buildingA")).chat okApi (.funCall "get_floors" [])
            (greedyScript n)).response = "done") := by
  constructor
  · intro bot api first rest
    rw [chat_dispLen]
    have h := runLoop_dispLen_le bot.is_authenticated api rest first LoopAcc.empty
    have h0 : LoopAcc.empty.dispatches.length = 0 := rfl
    omega
  · intro n
    obtain ⟨acc', hrun, hlen⟩ := greedy_run n LoopAcc.empty
    have hbot : (mkChatbot (some "buildingA")).is_authenticated = true := rfl
    have h0 : LoopAcc.empty.dispatches.length = 0 := rfl
    have hchat : (mkChatbot (some "buildingA")).chat okApi (.funCall "get_floors" [])
        (greedyScript n)
        = { success := true, response := "done", function_calls := acc'.log,
            data := acc'.data, error := Option.none,
            dispatches := acc'.dispatches, sent := acc'.sent } := by
      unfold Chatbot.chat
      rw [hbot, hrun]
      rfl
    rw [hchat]
    refine ⟨?_, rfl, rfl⟩
    show acc'.dispatches.length = n + 1
    omega

/-- C4 counterexample: the middleware does not clear the tenant context
after the downstream handler — for an authenticated request the bound
schema survives `dispatch`, both when the handler returns and when it
raises, contradicting "cleared on every exit path". -/
theorem c4_cex_context_survives_dispatch :
    (JWTAuthMiddleware.dispatch ⟨"/chat", some "Bearer tok"⟩
        (fun _ => .ok ⟨some "buildingA", [], []⟩)
        (fun _ => (Except.ok () : Except String Unit)) Option.none).ctxAfter
      = some "buildingA" ∧
    (JWTAuthMiddleware.dispatch ⟨"/chat", some "Bearer tok"⟩
        (fun _ => .ok ⟨some "buildingA", [], []⟩)
        (fun _ => (Except.error "handler raised" : Except String Unit)) Option.none).ctxAfter
      = some "buildingA" ∧
    (some "buildingA" : Option String) ≠ Option.none :=
  ⟨rfl, rfl, by decide⟩

/-- C4 amended: on every exit path — handler success or handler exception,
whatever context was bound at entry — the context after `dispatch` is the
tenant the middleware bound for this request (`boundSchemaFor`), i.e. the
binding is overwritten at entry but never cleared after the handler, so an
authenticated request's tenant remains bound past the end of the request. -/
theorem c4_amended_context_after_is_bound_tenant :
    ∀ (ρ : Type) (req : MwRequest) (verify : Verify) (callNext : Handler ρ)
      (ctx0 : Option String),
      (JWTAuthMiddleware.dispatch req verify callNext ctx0).ctxAfter
        = boundSchemaFor req verify := by
  intro ρ req verify callNext ctx0
  unfold JWTAuthMiddleware.dispatch boundSchemaFor
  split
  · rfl
  · split
    · rfl
    · dsimp only
      cases hv : verify (tokenOf (req.authorization.getD "")) with
      | error e => rfl
      | ok payload =>
        dsimp only
        split <;> rfl

/-- C8: when the resolver rejects the bearer token (`ValueError`), the
middleware binds no tenant, marks the request unauthenticated, and the
request completes normally with the handler's own outcome — the resolver's
error is never propagated. -/
theorem c8_invalid_credential_degrades_to_anonymous :
    ∀ (ρ : Type) (req : MwRequest) (verify : Verify) (callNext : Handler ρ)
      (ctx0 : Option String) (e : String),
      PUBLIC_ENDPOINTS.contains req.path = false →
      pyTruthy req.authorization = true →
      pyStartsWith (req.authorization.getD "") "Bearer " = true →
      verify (tokenOf (req.authorization.getD "")) = .error e →
      JWTAuthMiddleware.dispatch req verify callNext ctx0
        = { result := callNext Option.none, ctxAfter := Option.none,
            state := some ⟨false, Option.none, Option.none⟩ } := by
  intro ρ req verify callNext ctx0 e h1 h2 h3 hv
  unfold JWTAuthMiddleware.dispatch
  rw [h1, h2, h3]
  dsimp only
  rw [hv]
  rfl

theorem c8_witness :
    PUBLIC_ENDPOINTS.contains "/chat" = false ∧
    pyTruthy (some "Bearer bad") = true ∧
    pyStartsWith ((some "Bearer bad").getD "") "Bearer " = true ∧
    ((fun _ => Except.error "Invalid token: bad segments" : Verify)
      (tokenOf ((some "Bearer bad").getD ""))
        = Except.error "Invalid token: bad segments") ∧
    JWTAuthMiddleware.dispatch ⟨"/chat", some "Bearer bad"⟩
        (fun _ => Except.error "Invalid token: bad segments")
        (fun ctx => (Except.ok ctx : Except String (Option String))) (some "stale")
      = { result := Except.ok Option.none, ctxAfter := Option.none,
          state := some ⟨false, Option.none, Option.none⟩ } :=
  ⟨by decide, by decide, by decide, rfl,
   c8_invalid_credential_degrades_to_anonymous (Option String)
     ⟨"/chat", some "Bearer bad"⟩ (fun _ => Except.error "Invalid token: bad segments")
     (fun ctx => Except.ok ctx) (some "stale") "Invalid token: bad segments"
     (by decide) (by decide) (by decide) rfl⟩

/-- The value `extract_building_id` falls back to after the direct claim:
the `custom_claims` lookup when that dict is non-empty, otherwise the
(falsy) direct value it already held. -/
def customFallback (p : TokenPayload) : Option String :=
  if !p.custom_claims.isEmpty then customClaimsGet p.custom_claims "building_id"
  else p.building_id

/-- The role-list heuristic: the first `realm_access` role whose lowercased
name contains `"building"`. -/
def roleFallback (p : TokenPayload) : Option String :=
  p.realm_access_roles.find? (fun role => pyInStr "building" (pyLower role))

/-- Model of `extract_building_id`, written with the two fallbacks named. -/
theorem extract_building_id_eq (p : TokenPayload) :
    extract_building_id p =
      if pyTruthy p.building_id then p.building_id
      else if pyTruthy (customFallback p) then customFallback p
      else
        match roleFallback p with
        | some role => some role
        | Option.none => customFallback p := by
  unfold extract_building_id customFallback roleFallback
  rfl

/-- C9's reading of the precedence, with "absent" meaning a missing (null)
claim, formalised from the claim's words so it can be compared with the
source's `extract_building_id`. -/
def buildingIdClaim (p : TokenPayload) : Option String :=
  match p.building_id with
  | some b => some b
  | Option.none =>
    match customClaimsGet p.custom_claims "building_id" with
    | some b => some b
    | Option.none => roleFallback p

/-- C9 counterexample: the source treats an *empty* (falsy) claim value as
absent and falls through, and it can return `""` rather than `None`:
with a present-but-empty direct claim and a nested `custom_claims` value,
the code yields the nested value where the claim's precedence yields the
direct `""`; with nothing truthy anywhere the code returns `some ""`, not
`None`. -/
theorem c9_cex_empty_claim_falls_through :
    extract_building_id ⟨some "", [("building_id", "B7")], []⟩ = some "B7" ∧
    buildingIdClaim ⟨some "", [("building_id", "B7")], []⟩ = some "" ∧
    (some "B7" : Option String) ≠ some "" ∧
    extract_building_id ⟨some "", [], []⟩ = some "" ∧
    (some "" : Option String) ≠ Option.none :=
  ⟨rfl, rfl, by decide, rfl, by decide⟩

/-- C9 amended: the precedence holds with "absent" read as Python-falsy
(`None` or `""`): a truthy direct claim wins; otherwise a truthy
`custom_claims` fallback (consulted only when that dict is non-empty) wins;
otherwise the first role containing `"building"`; and when all three fail
the result is the falsy fallback value (`None` or `""`), so the middleware
binds no tenant. -/
theorem c9_amended_precedence_with_falsy_absence :
    ∀ p : TokenPayload,
      (pyTruthy p.building_id = true → extract_building_id p = p.building_id) ∧
      (pyTruthy p.building_id = false → pyTruthy (customFallback p) = true →
        extract_building_id p = customFallback p) ∧
      (∀ r, pyTruthy p.building_id = false → pyTruthy (customFallback p) = false →
        roleFallback p = some r → extract_building_id p = some r) ∧
      (pyTruthy p.building_id = false → pyTruthy (customFallback p) = false →
        roleFallback p = Option.none →
        extract_building_id p = customFallback p ∧
          pyTruthy (extract_building_id p) = false) := by
  intro p
  refine ⟨?_, ?_, ?_, ?_⟩
  · intro h1
    rw [extract_building_id_eq, if_pos h1]
  · intro h1 h2
    rw [extract_building_id_eq, if_neg (by simp [h1]), if_pos h2]
  · intro r h1 h2 h3
    rw [extract_building_id_eq, if_neg (by simp [h1]), if_neg (by simp [h2]), h3]
  · intro h1 h2 h3
    rw [extract_building_id_eq, if_neg (by simp [h1]), if_neg (by simp [h2]), h3]
    exact ⟨rfl, h2⟩

theorem c9_amended_witness :
    pyTruthy (Option.none : Option String) = false ∧
    pyTruthy (customFallback ⟨Option.none, [], ["resident_buildingX"]⟩) = false ∧
    roleFallback ⟨Option.none, [], ["resident_buildingX"]⟩ = some "resident_buildingX" ∧
    extract_building_id ⟨Option.none, [], ["resident_buildingX"]⟩ = some "resident_buildingX" :=
  ⟨rfl, rfl, by decide,
   (c9_amended_precedence_with_falsy_absence ⟨Option.none, [], ["resident_buildingX"]⟩).2.2.1
     "resident_buildingX" rfl rfl (by decide)⟩

/-- Core fact about the `/chat` session block: an entry that exists before
and after resolution either kept its chatbot and tenant unchanged, or was
rebound through the tenant-switch path (same session id requested, bound
tenant differs from the request's tenant) — and then its chatbot is a
freshly constructed one. -/
theorem resolve_preserves_or_switches
    (sessions : Sessions) (schema : Option String) (req_sid : Option String)
    (freshId sid : String) (b b' : Chatbot) (t t' : Option String)
    (hbef : PyDict.get? sessions sid = some (b, t))
    (haft : PyDict.get? (chatSessionResolve sessions schema req_sid freshId).sessions sid
      = some (b', t'))
    (hnf : sid ≠ freshId) :
    (b' = b ∧ t' = t) ∨
    (∃ s, schema = some s ∧ req_sid = some sid ∧ t ≠ some s ∧ t' = some s ∧
      b' = mkChatbot (some s)) := by
  cases schema with
  | none =>
    left
    unfold chatSessionResolve at haft
    dsimp only at haft
    rw [PyDict.get?_set_ne _ _ _ _ hnf] at haft
    by_cases hc : (pyTruthy req_sid && PyDict.hasKey sessions (req_sid.getD "")) = true
    · rw [if_pos hc] at haft
      by_cases hs : sid = req_sid.getD ""
      · rw [hs, PyDict.get?_erase_self] at haft
        exact absurd haft (by simp)
      · rw [PyDict.get?_erase_ne _ _ _ hs, hbef] at haft
        simp only [Option.some.injEq, Prod.mk.injEq] at haft
        exact ⟨haft.1.symm, haft.2.symm⟩
    · rw [if_neg hc, hbef] at haft
      simp only [Option.some.injEq, Prod.mk.injEq] at haft
      exact ⟨haft.1.symm, haft.2.symm⟩
  | some s =>
    unfold chatSessionResolve at haft
    dsimp only at haft
    by_cases hc : (!pyTruthy req_sid || !PyDict.hasKey sessions (req_sid.getD "")) = true
    · -- creation branch: the touched key differs from `sid`
      rw [if_pos hc] at haft
      left
      by_cases hp : pyTruthy req_sid = true
      · have hnk : PyDict.hasKey sessions (req_sid.getD "") = false := by
          rcases Bool.or_eq_true_iff.mp hc with h | h
          · rw [hp] at h; simp at h
          · revert h; cases PyDict.hasKey sessions (req_sid.getD "") <;> simp
        have hne : sid ≠ (if !pyTruthy req_sid then freshId else req_sid.getD "") := by
          rw [hp]
          simp only [Bool.not_true, Bool.false_eq_true, if_false]
          intro heq
          rw [PyDict.hasKey_iff_get?, ← heq, hbef] at hnk
          simp at hnk
        rw [PyDict.get?_set_ne _ _ _ _ hne, hbef] at haft
        simp only [Option.some.injEq, Prod.mk.injEq] at haft
        exact ⟨haft.1.symm, haft.2.symm⟩
      · have hp' : pyTruthy req_sid = false := by
          revert hp; cases pyTruthy req_sid <;> simp
        have hne : sid ≠ (if !pyTruthy req_sid then freshId else req_sid.getD "") := by
          rw [hp']
          simpa using hnf
        rw [PyDict.get?_set_ne _ _ _ _ hne, hbef] at haft
        simp only [Option.some.injEq, Prod.mk.injEq] at haft
        exact ⟨haft.1.symm, haft.2.symm⟩
    · -- known-session branch
      rw [if_neg hc] at haft
      have hp : pyTruthy req_sid = true := by
        revert hc; cases pyTruthy req_sid <;> simp
      have hk : PyDict.hasKey sessions (req_sid.getD "") = true := by
        revert hc; cases PyDict.hasKey sessions (req_sid.getD "") <;> simp
      obtain ⟨x, hx⟩ : ∃ x, req_sid = some x := by
        cases req_sid with
        | none => rw [pyTruthy] at hp; exact absurd hp (by simp)
        | some x => exact ⟨x, rfl⟩
      subst hx
      simp only [Option.getD] at haft hk
      cases hget : PyDict.get? sessions x with
      | none =>
        rw [PyDict.hasKey_iff_get?, hget] at hk
        exact absurd hk (by simp)
      | some bo =>
        obtain ⟨bot, old⟩ := bo
        rw [hget] at haft
        dsimp only at haft
        by_cases hol : old ≠ some s
        · rw [if_pos hol] at haft
          dsimp only at haft
          by_cases hs : sid = x
          · subst hs
            rw [PyDict.get?_set_self] at haft
            rw [hget] at hbef
            simp only [Option.some.injEq, Prod.mk.injEq] at haft hbef
            right
            refine ⟨s, rfl, rfl, ?_, haft.2.symm, haft.1.symm⟩
            rw [← hbef.2]
            exact hol
          · rw [PyDict.get?_set_ne _ _ _ _ hs, hbef] at haft
            simp only [Option.some.injEq, Prod.mk.injEq] at haft
            exact Or.inl ⟨haft.1.symm, haft.2.symm⟩
        · rw [if_neg hol] at haft
          dsimp only at haft
          rw [hbef] at haft
          simp only [Option.some.injEq, Prod.mk.injEq] at haft
          exact Or.inl ⟨haft.1.symm, haft.2.symm⟩

/-- C5: a stored session's bound tenant changes only through the `/chat`
tenant-switch path (same session id requested with a different bound
tenant), and such a change replaces the chatbot with a freshly constructed
one — empty conversation (`chat_session = none`), rebound to the new
tenant; the other registry operations never rebind a tenant
(`/session/new` touches only its fresh id, reset keeps the tenant, delete
only removes); and a data operation run under the new tenant context is
addressed to the new tenant's partition. -/
theorem c5_tenant_rebinding_only_via_switch :
    (∀ (sessions : Sessions) (schema : Option String) (req_sid : Option String)
       (freshId sid : String) (b b' : Chatbot) (t t' : Option String),
       PyDict.get? sessions sid = some (b, t) →
       PyDict.get? (chatSessionResolve sessions schema req_sid freshId).sessions sid
         = some (b', t') →
       sid ≠ freshId →
       ((b' = b ∧ t' = t) ∨
        (∃ s, schema = some s ∧ req_sid = some sid ∧ t ≠ some s ∧ t' = some s ∧
          b' = mkChatbot (some s) ∧ b'.chat_session = Option.none ∧
          b'.schema_name = some s))) ∧
    (∀ (sessions : Sessions) (schema : Option String) (freshId sid : String),
       sid ≠ freshId →
       PyDict.get? (createSession sessions schema freshId).1 sid
         = PyDict.get? sessions sid) ∧
    (∀ (sessions : Sessions) (rid sid : String) (b : Chatbot) (t : Option String),
       PyDict.get? sessions sid = some (b, t) →
       ∃ b'', PyDict.get? (resetSession sessions rid).1 sid = some (b'', t) ∧
         b''.schema_name = b.schema_name) ∧
    (∀ (sessions : Sessions) (did sid : String) (v : Chatbot × Option String),
       PyDict.get? (deleteSession sessions did).1 sid = some v →
       PyDict.get? sessions sid = some v) ∧
    (∀ (s : String) (store : Store) (q : String) (params : List PyVal),
       Database.execute_query (some s) store q params
         = store (q.replace "\x7bschema\x7d" s) params) := by
  refine ⟨?_, ?_, ?_, ?_, fun _ _ _ _ => rfl⟩
  · intro sessions schema req_sid freshId sid b b' t t' hbef haft hnf
    rcases resolve_preserves_or_switches sessions schema req_sid freshId sid b b' t t'
      hbef haft hnf with h | ⟨s, h1, h2, h3, h4, h5⟩
    · exact Or.inl h
    · exact Or.inr ⟨s, h1, h2, h3, h4, h5, by rw [h5]; rfl, by rw [h5]; rfl⟩
  · intro sessions schema freshId sid hnf
    exact PyDict.get?_set_ne _ _ _ _ hnf
  · intro sessions rid sid b t hbef
    unfold resetSession
    cases hget : PyDict.get? sessions rid with
    | none => exact ⟨b, hbef, rfl⟩
    | some bo =>
      obtain ⟨bot, schema⟩ := bo
      dsimp only
      by_cases hs : sid = rid
      · subst hs
        rw [hget] at hbef
        simp only [Option.some.injEq, Prod.mk.injEq] at hbef
        rw [PyDict.get?_set_self]
        exact ⟨startNewConversation bot, by rw [hbef.2], by rw [← hbef.1]; rfl⟩
      · rw [PyDict.get?_set_ne _ _ _ _ hs]
        exact ⟨b, hbef, rfl⟩
  · intro sessions did sid v haft
    unfold deleteSession at haft
    by_cases hk : PyDict.hasKey sessions did = true
    · rw [if_pos hk] at haft
      by_cases hs : sid = did
      · subst hs
        rw [PyDict.get?_erase_self] at haft
        exact absurd haft (by simp)
      · rwa [PyDict.get?_erase_ne _ _ _ hs] at haft
    · rwa [if_neg hk] at haft

theorem c5_witness :
    PyDict.get? [("s1", (mkChatbot (some "A"), some "A"))] "s1"
        = some (mkChatbot (some "A"), some "A") ∧
    PyDict.get? (chatSessionResolve [("s1", (mkChatbot (some "A"), some "A"))]
        (some "B") (some "s1") "f9").sessions "s1"
        = some (mkChatbot (some "B"), some "B") ∧
    ("s1" : String) ≠ "f9" ∧
    ((mkChatbot (some "B") = mkChatbot (some "A") ∧ (some "B" : Option String) = some "A") ∨
     (∃ s, (some "B" : Option String) = some s ∧ (some "s1" : Option String) = some "s1" ∧
       (some "A" : Option String) ≠ some s ∧ (some "B" : Option String) = some s ∧
       mkChatbot (some "B") = mkChatbot (some s) ∧
       (mkChatbot (some "B")).chat_session = Option.none ∧
       (mkChatbot (some "B")).schema_name = some s)) :=
  ⟨rfl, rfl, by decide,
   c5_tenant_rebinding_only_via_switch.1 [("s1", (mkChatbot (some "A"), some "A"))]
     (some "B") (some "s1") "f9" "s1" (mkChatbot (some "A")) (mkChatbot (some "B"))
     (some "A") (some "B") rfl rfl (by decide)⟩

/-- C7: with no bound ten­ant, the `/chat` endpoint discards whatever session
was stored under the supplied id, answers with the freshly generated id, and
registers under it a freshly constructed unauthenticated chatbot (tenant
`none`, no tools, empty conversation) — so anonymous and authenticated
conversation state never share a session entry. -/
theorem c7_anonymous_request_gets_fresh_session :
    ∀ (sessions : Sessions) (req_sid : Option String) (freshId : String),
      (chatSessionResolve sessions Option.none req_sid freshId).session_id = freshId ∧
      (chatSessionResolve sessions Option.none req_sid freshId).bot
        = mkChatbot Option.none ∧
      PyDict.get? (chatSessionResolve sessions Option.none req_sid freshId).sessions freshId
        = some (mkChatbot Option.none, Option.none) ∧
      (∀ sid, req_sid = some sid → sid ≠ "" → sid ≠ freshId →
        PyDict.get? (chatSessionResolve sessions Option.none req_sid freshId).sessions sid
          = Option.none) ∧
      (mkChatbot Option.none).is_authenticated = false ∧
      (mkChatbot Option.none).tools = [] ∧
      (mkChatbot Option.none).chat_session = Option.none := by
  intro sessions req_sid freshId
  refine ⟨rfl, rfl, PyDict.get?_set_self _ _ _, ?_, rfl, rfl, rfl⟩
  intro sid hreq hne hnf
  subst hreq
  show PyDict.get? (PyDict.set
      (if pyTruthy (some sid) && PyDict.hasKey sessions ((some sid).getD "")
       then PyDict.erase sessions ((some sid).getD "") else sessions)
      freshId (mkChatbot Option.none, Option.none)) sid = Option.none
  rw [PyDict.get?_set_ne _ _ _ _ hnf]
  have ht : pyTruthy (some sid) = true := by
    rw [pyTruthy]
    simpa using hne
  simp only [Option.getD, ht, Bool.true_and]
  by_cases hk : PyDict.hasKey sessions sid = true
  · rw [if_pos hk]
    exact PyDict.get?_erase_self _ _
  · rw [if_neg hk]
    rw [PyDict.hasKey_iff_get?] at hk
    cases hget : PyDict.get? sessions sid with
    | none => rfl
    | some v => rw [hget] at hk; simp at hk

theorem c7_witness :
    (chatSessionResolve [("old", (mkChatbot (some "A"), some "A"))] Option.none
        (some "old") "f1").session_id = "f1" ∧
    PyDict.get? (chatSessionResolve [("old", (mkChatbot (some "A"), some "A"))]
        Option.none (some "old") "f1").sessions "old" = Option.none ∧
    PyDict.get? (chatSessionResolve [("old", (mkChatbot (some "A"), some "A"))]
        Option.none (some "old") "f1").sessions "f1"
      = some (mkChatbot Option.none, Option.none) :=
  ⟨(c7_anonymous_request_gets_fresh_session
      [("old", (mkChatbot (some "A"), some "A"))] (some "old") "f1").1,
   (c7_anonymous_request_gets_fresh_session
      [("old", (mkChatbot (some "A"), some "A"))] (some "old") "f1").2.2.2.1
     "old" rfl (by decide) (by decide),
   (c7_anonymous_request_gets_fresh_session
      [("old", (mkChatbot (some "A"), some "A"))] (some "old") "f1").2.2.1⟩

/-- The dispatch trace of a loop outcome. -/
def LoopOut.dispatches : LoopOut → List (String × List (String × PyVal))
  | .done a _ => a.dispatches
  | .raised a _ => a.dispatches

/-- The dispatch trace after one loop iteration. -/
def StepOut.dispatches : StepOut → List (String × List (String × PyVal))
  | .exit out => out.dispatches
  | .again a => a.dispatches

/-- One loop iteration dispatches only catalog names. -/
theorem loopStep_dispatch_catalog (auth : Bool) (api : Api) (resp : ModelResponse)
    (acc : LoopAcc)
    (h : acc.dispatches.all (fun d => FUNCTION_MAP_keys.contains d.1) = true) :
    (loopStep auth api resp acc).dispatches.all
      (fun d => FUNCTION_MAP_keys.contains d.1) = true := by
  cases resp with
  | text t =>
    have hs : loopStep auth api (.text t) acc = .exit (.done acc (.text t)) := rfl
    rw [hs]
    exact h
  | funCall n args =>
    unfold loopStep
    dsimp only
    split
    · exact h
    · split
      · exact h
      · split
        · split
          · exact h
          · simp only [StepOut.dispatches, List.all_append, List.all_cons, List.all_nil,
              Bool.and_true, Bool.and_eq_true]
            exact ⟨h, by assumption⟩
        · exact h

/-- The loop dispatches only catalog names, from any catalog-clean start. -/
theorem runLoop_dispatch_catalog (auth : Bool) (api : Api) :
    ∀ (script : List ModelResponse) (resp : ModelResponse) (acc : LoopAcc),
      acc.dispatches.all (fun d => FUNCTION_MAP_keys.contains d.1) = true →
      (runLoop auth api resp script acc).dispatches.all
        (fun d => FUNCTION_MAP_keys.contains d.1) = true := by
  intro script
  induction script with
  | nil =>
    intro resp acc h
    have hst := loopStep_dispatch_catalog auth api resp acc h
    cases hs : loopStep auth api resp acc with
    | exit out =>
      rw [runLoop_exit auth api resp [] acc out hs]
      rw [hs] at hst
      exact hst
    | again acc' =>
      simp only [runLoop, hs]
      rw [hs] at hst
      exact hst
  | cons next rest ih =>
    intro resp acc h
    have hst := loopStep_dispatch_catalog auth api resp acc h
    cases hs : loopStep auth api resp acc with
    | exit out =>
      rw [runLoop_exit auth api resp (next :: rest) acc out hs]
      rw [hs] at hst
      exact hst
    | again acc' =>
      rw [runLoop_cons_again auth api resp next rest acc acc' hs]
      rw [hs] at hst
      exact ih next acc' hst

/-- The dispatch trace of a whole turn is the loop's dispatch trace. -/
theorem chat_dispatches (bot : Chatbot) (api : Api) (first : ModelResponse)
    (rest : List ModelResponse) :
    (bot.chat api first rest).dispatches
      = (runLoop bot.is_authenticated api first rest LoopAcc.empty).dispatches := by
  unfold Chatbot.chat
  cases hrun : runLoop bot.is_authenticated api first rest LoopAcc.empty with
  | raised acc e => simp [LoopOut.dispatches]
  | done acc last =>
    cases last with
    | text t => simp [responseText, LoopOut.dispatches]
    | funCall n args => simp [responseText, LoopOut.dispatches]

/-- C6 counterexample: an operation request naming an operation outside the
catalog does *not* abort the loop and surfaces no error to the caller — the
turn continues, dispatches the next requested operation, and ends as a
success; and an operation whose arguments violate its declared schema (the
required `service_code` of `calculate_service_fee` is missing) is
dispatched anyway. -/
theorem c6_cex_unknown_name_continues_loop :
    ((mkChatbot (some "buildingA")).chat okApi (.funCall "make_coffee" [])
        [.funCall "get_floors" [], .text "done"]).dispatches
      = [("get_floors", [])] ∧
    ((mkChatbot (some "buildingA")).chat okApi (.funCall "make_coffee" [])
        [.funCall "get_floors" [], .text "done"]).success = true ∧
    ((mkChatbot (some "buildingA")).chat okApi (.funCall "make_coffee" [])
        [.funCall "get_floors" [], .text "done"]).error = Option.none ∧
    ((mkChatbot (some "buildingA")).chat okApi (.funCall "make_coffee" [])
        [.funCall "get_floors" [], .text "done"]).function_calls
      = [("make_coffee", []), ("get_floors", [])] ∧
    ((mkChatbot (some "buildingA")).chat okApi (.funCall "make_coffee" [])
        [.funCall "get_floors" [], .text "done"]).sent.head?
      = some ("make_coffee",
          PyVal.dict [("result",
            PyVal.dict [("error", PyVal.str "Function make_coffee not found")])]) ∧
    argsSatisfySchema "calculate_service_fee" [] = false ∧
    ((mkChatbot (some "buildingA")).chat okApi (.funCall "calculate_service_fee" [])
        [.text "ok"]).dispatches = [("calculate_service_fee", [])] :=
  ⟨rfl, rfl, rfl, rfl, rfl, rfl, rfl⟩

/-- C6 amended: the loop never dispatches a name outside the catalog, but it
does not abort on one either — an unknown (non-blank) operation name is
logged, an error dict naming it is sent back to the model in place of a
result, nothing is dispatched for it, and the loop continues with the
model's next reply; arguments are never validated against the declared
schema — the only failure mode is an exception raised by the realised
dispatch itself (for example a keyword mismatch), which aborts the whole
turn with `success = false` and the exception as the turn's error. -/
theorem c6_amended_unknown_name_feeds_error_back :
    (∀ (bot : Chatbot) (api : Api) (first : ModelResponse) (rest : List ModelResponse),
       ((bot.chat api first rest).dispatches.all
         (fun d => FUNCTION_MAP_keys.contains d.1)) = true) ∧
    (∀ (api : Api) (n : String) (args : List (String × PyVal)) (acc : LoopAcc),
       (n == "" || pyStrip n == "") = false →
       FUNCTION_MAP_keys.contains n = false →
       loopStep true api (.funCall n args) acc
         = .again ⟨acc.log ++ [(n, args)], acc.data, acc.dispatches,
             acc.sent ++ [(n, PyVal.dict [("result",
               PyVal.dict [("error", PyVal.str ("Function " ++ n ++ " not found"))])])]⟩) ∧
    (∀ (api : Api) (n : String) (args : List (String × PyVal)) (acc : LoopAcc)
       (next : ModelResponse) (rest : List ModelResponse),
       (n == "" || pyStrip n == "") = false →
       FUNCTION_MAP_keys.contains n = false →
       runLoop true api (.funCall n args) (next :: rest) acc
         = runLoop true api next rest
             ⟨acc.log ++ [(n, args)], acc.data, acc.dispatches,
              acc.sent ++ [(n, PyVal.dict [("result",
                PyVal.dict [("error", PyVal.str ("Function " ++ n ++ " not found"))])])]⟩) ∧
    (∀ (s : String) (api : Api) (n : String) (args : List (String × PyVal))
       (rest : List ModelResponse) (e : String),
       (n == "" || pyStrip n == "") = false →
       FUNCTION_MAP_keys.contains n = true →
       api n args = .error e →
       ((mkChatbot (some s)).chat api (.funCall n args) rest).success = false ∧
       ((mkChatbot (some s)).chat api (.funCall n args) rest).error = some e ∧
       ((mkChatbot (some s)).chat api (.funCall n args) rest).response
         = "Xin lỗi, có lỗi xảy ra: " ++ e) := by
  refine ⟨?_, ?_, ?_, ?_⟩
  · intro bot api first rest
    rw [chat_dispatches]
    exact runLoop_dispatch_catalog bot.is_authenticated api rest first LoopAcc.empty rfl
  · intro api n args acc h1 h2
    unfold loopStep
    dsimp only
    rw [h1, h2]
    rfl
  · intro api n args acc next rest h1 h2
    refine runLoop_cons_again true api _ next rest acc _ ?_
    unfold loopStep
    dsimp only
    rw [h1, h2]
    rfl
  · intro s api n args rest e h1 h2 hapi
    have hbot : (mkChatbot (some s)).is_authenticated = true := rfl
    have hstep : loopStep true api (.funCall n args) LoopAcc.empty
        = .exit (.raised ⟨[(n, args)], [], [], []⟩ e) := by
      unfold loopStep
      dsimp only
      rw [h1, h2, hapi]
      rfl
    have hrun : runLoop (mkChatbot (some s)).is_authenticated api (.funCall n args) rest
        LoopAcc.empty = .raised ⟨[(n, args)], [], [], []⟩ e := by
      rw [hbot]
      exact runLoop_exit true api _ rest LoopAcc.empty _ hstep
    refine ⟨?_, ?_, ?_⟩ <;> (unfold Chatbot.chat; rw [hrun])

theorem c6_amended_witness :
    (("make_coffee" == "" || pyStrip "make_coffee" == "") = false) ∧
    (FUNCTION_MAP_keys.contains "make_coffee" = false) ∧
    loopStep true okApi (.funCall "make_coffee" []) LoopAcc.empty
      = .again ⟨[("make_coffee", [])], [], [],
          [("make_coffee", PyVal.dict [("result",
            PyVal.dict [("error", PyVal.str "Function make_coffee not found")])])]⟩ :=
  ⟨by decide, by decide,
   c6_amended_unknown_name_feeds_error_back.2.1 okApi "make_coffee" [] LoopAcc.empty
     (by decide) (by decide)⟩
